import Mathlib

/-
  Verification of the tgterm request-orchestration layer (src/bot.c):
  the TOTP authentication gate, owner pinning, command dispatch, and the
  UTF-8 text to keystroke-event encoder.  The C code is shallowly embedded:
  C byte strings become `List Nat` (one Nat per byte, no NUL terminator),
  machine integers become Nat/Int with explicit wrap where it matters, and
  the external platform / messaging / storage collaborators become an
  explicit environment and an action trace.
-/

namespace TgTerm

/- ===================================================================
   Byte-level C library models (ctype.h / stdlib.h / string.h, ASCII)
   =================================================================== -/

/-- Model of C `isdigit` on a byte. -/
def isdigit (b : Nat) : Bool := 0x30 ≤ b && b ≤ 0x39

/-- Model of C `isspace` on a byte (space, \t \n \v \f \r). -/
def isspace (b : Nat) : Bool := b == 0x20 || (0x09 ≤ b && b ≤ 0x0D)

/-- Model of C `tolower` on a byte (ASCII). -/
def tolower (b : Nat) : Nat := if 0x41 ≤ b && b ≤ 0x5A then b + 32 else b

/-- Value of the leading decimal-digit prefix of a byte string, accumulated
    onto `acc`; stops at the first non-digit byte. -/
def digitsVal : List Nat → Nat → Nat
  | b :: rest, acc => if isdigit b then digitsVal rest (acc * 10 + (b - 0x30)) else acc
  | [], acc => acc

/-- Model of C `atoi`: skip whitespace, optional sign, then leading digits.
    (Result as a mathematical Int; the program never feeds it values that
    overflow a C int on the paths verified here.) -/
def atoi (s : List Nat) : Int :=
  let s1 := s.dropWhile (fun b => isspace b)
  match s1 with
  | 0x2D :: rest => - (digitsVal rest 0 : Int)
  | 0x2B :: rest => (digitsVal rest 0 : Int)
  | _ => (digitsVal s1 0 : Int)

/-- Bytes of a Lean string literal (UTF-8), used to transport stored
    key/value strings into the byte-level functions. -/
def strBytes (s : String) : List Nat :=
  (s.data.flatMap (fun c => String.utf8EncodeChar c)).map (fun b => b.toNat)

/-- Model of `strcasecmp(a, b) == 0` for NUL-free byte strings. -/
def strcaseeq (a b : List Nat) : Bool :=
  a.map tolower == b.map tolower

/-- Model of `strncasecmp(a, b, n) == 0` for NUL-free byte strings: the
    comparison sees each string followed by its NUL terminator and stops
    after `n` bytes. -/
def strncaseeq (a b : List Nat) (n : Nat) : Bool :=
  ((a ++ [0]).take n).map tolower == ((b ++ [0]).take n).map tolower

/- ===================================================================
   UTF-8 emoji parsing (src/bot.c lines 227-268)
   =================================================================== -/

/-- Match red heart (E2 9D A4, optionally followed by EF B8 8F); returns
    the number of bytes consumed, 0 when there is no match. -/
def match_red_heart : List Nat → Nat
  | 0xE2 :: 0x9D :: 0xA4 :: 0xEF :: 0xB8 :: 0x8F :: _ => 6
  | 0xE2 :: 0x9D :: 0xA4 :: _ => 3
  | _ => 0

/-- Match colored hearts (F0 9F 92 99/9A/9B); returns bytes consumed and
    the heart tag byte (B, G or Y as in the C code), (0, 0) when no match. -/
def match_colored_heart : List Nat → Nat × Nat
  | 0xF0 :: 0x9F :: 0x92 :: 0x99 :: _ => (4, 0x42)
  | 0xF0 :: 0x9F :: 0x92 :: 0x9A :: _ => (4, 0x47)
  | 0xF0 :: 0x9F :: 0x92 :: 0x9B :: _ => (4, 0x59)
  | _ => (0, 0)

/-- Match orange heart (F0 9F A7 A1) - sends Enter. -/
def match_orange_heart : List Nat → Nat
  | 0xF0 :: 0x9F :: 0xA7 :: 0xA1 :: _ => 4
  | _ => 0

/-- Match purple heart (F0 9F 92 9C) - used to suppress the newline. -/
def match_purple_heart : List Nat → Nat
  | 0xF0 :: 0x9F :: 0x92 :: 0x9C :: _ => 4
  | _ => 0

/-- Check if the byte string ends with the purple heart. -/
def ends_with_purple_heart (text : List Nat) : Bool :=
  decide (4 ≤ text.length) &&
    decide (0 < match_purple_heart (text.drop (text.length - 4)))

/- ===================================================================
   Keystroke sending (src/platform.h constants, src/bot.c send_keys)
   =================================================================== -/

def MOD_CTRL : Nat := 1
def MOD_ALT : Nat := 2
def MOD_CMD : Nat := 4

def PLAT_KEY_CHAR : Nat := 0
def PLAT_KEY_RETURN : Nat := 1
def PLAT_KEY_TAB : Nat := 2
def PLAT_KEY_ESCAPE : Nat := 3

/-- One keystroke as handed to `plat_send_key`: the special-key id, the
    character byte (used only for PLAT_KEY_CHAR) and the modifier mask. -/
structure KeyEvent where
  special : Nat
  ch : Nat
  mods : Nat
deriving DecidableEq, Repr

/-- Result of the send_keys scanning loop: the emitted events plus the
    final values of the loop-carried flags. -/
structure ScanResult where
  events : List KeyEvent
  keycount : Nat
  had_mods : Bool
  last_was_nl : Bool
deriving DecidableEq, Repr

/-- The while loop of send_keys (src/bot.c lines 331-385), scanning the
    byte string left to right with the pending-modifier mask `mods` and the
    loop flags `keycount`, `had_mods`, `last_was_nl` carried through.
    Every iteration consumes at least one byte, so the loop is run through
    a fuel counter initialised to the string length (`scanKeys` below);
    `scanLoop_fuel` proves the fuel bound exact. -/
def scanLoop : Nat → List Nat → Nat → Nat → Bool → Bool → ScanResult
  | _, [], _, keycount, had_mods, last_was_nl => ⟨[], keycount, had_mods, last_was_nl⟩
  | 0, _ :: _, _, keycount, had_mods, last_was_nl => ⟨[], keycount, had_mods, last_was_nl⟩
  | fuel + 1, b :: rest, mods, keycount, had_mods, last_was_nl =>
    if 0 < match_red_heart (b :: rest) then
      scanLoop fuel ((b :: rest).drop (match_red_heart (b :: rest))) (mods ||| MOD_CTRL)
        keycount had_mods last_was_nl
    else if 0 < match_orange_heart (b :: rest) then
      let r := scanLoop fuel ((b :: rest).drop (match_orange_heart (b :: rest))) 0 (keycount + 1)
        (had_mods || (mods != 0)) true
      ⟨⟨PLAT_KEY_RETURN, 0, mods⟩ :: r.events, r.keycount, r.had_mods, r.last_was_nl⟩
    else if 0 < (match_colored_heart (b :: rest)).1 then
      if (match_colored_heart (b :: rest)).2 = 0x59 then
        let r := scanLoop fuel ((b :: rest).drop (match_colored_heart (b :: rest)).1) 0
          (keycount + 1) true false
        ⟨⟨PLAT_KEY_ESCAPE, 0, 0⟩ :: r.events, r.keycount, r.had_mods, r.last_was_nl⟩
      else if (match_colored_heart (b :: rest)).2 = 0x42 then
        scanLoop fuel ((b :: rest).drop (match_colored_heart (b :: rest)).1) (mods ||| MOD_ALT)
          keycount had_mods last_was_nl
      else
        scanLoop fuel ((b :: rest).drop (match_colored_heart (b :: rest)).1) (mods ||| MOD_CMD)
          keycount had_mods last_was_nl
    else if b = 0x5C ∧ rest.headD 0 = 0x6E then
      let r := scanLoop fuel (rest.drop 1) 0 (keycount + 1) (had_mods || (mods != 0)) true
      ⟨⟨PLAT_KEY_RETURN, 0, mods⟩ :: r.events, r.keycount, r.had_mods, r.last_was_nl⟩
    else if b = 0x5C ∧ rest.headD 0 = 0x74 then
      let r := scanLoop fuel (rest.drop 1) 0 (keycount + 1) (had_mods || (mods != 0)) false
      ⟨⟨PLAT_KEY_TAB, 0, mods⟩ :: r.events, r.keycount, r.had_mods, r.last_was_nl⟩
    else if b = 0x5C ∧ rest.headD 0 = 0x5C then
      let r := scanLoop fuel (rest.drop 1) 0 (keycount + 1) (had_mods || (mods != 0)) false
      ⟨⟨PLAT_KEY_CHAR, 0x5C, mods⟩ :: r.events, r.keycount, r.had_mods, r.last_was_nl⟩
    else
      let r := scanLoop fuel rest 0 (keycount + 1) (had_mods || (mods != 0)) false
      ⟨⟨PLAT_KEY_CHAR, b, mods⟩ :: r.events, r.keycount, r.had_mods, r.last_was_nl⟩

/-- The send_keys scanning loop over a whole byte string. -/
def scanKeys (bs : List Nat) (mods keycount : Nat) (had_mods last_was_nl : Bool) : ScanResult :=
  scanLoop bs.length bs mods keycount had_mods last_was_nl

/-- The byte string actually scanned by send_keys: the trailing purple
    heart (4 bytes) is cut off when present (src/bot.c lines 316-322). -/
def scan_body (text : List Nat) : List Nat :=
  if ends_with_purple_heart text && decide (4 ≤ text.length) then
    text.take (text.length - 4)
  else text

/-- The scan of send_keys on a request text, started with no pending
    modifiers and cleared flags. -/
def scan_result (text : List Nat) : ScanResult :=
  scanKeys (scan_body text) 0 0 false false

/-- The automatic trailing-Return test of send_keys (src/bot.c line 387):
    `add_newline && !(keycount == 1 && had_mods) && !last_was_nl`. -/
def auto_return_decision (text : List Nat) : Bool :=
  !ends_with_purple_heart text
    && !((scan_result text).keycount == 1 && (scan_result text).had_mods)
    && !(scan_result text).last_was_nl

/-- Full key-event sequence sent by send_keys for a request text, the
    automatic trailing Return included. -/
def send_keys_events (text : List Nat) : List KeyEvent :=
  (scan_result text).events ++
    (if auto_return_decision text then [⟨PLAT_KEY_RETURN, 0, 0⟩] else [])

/- ===================================================================
   TOTP engine (src/bot.c lines 79-97, 130-139, 203-220)
   =================================================================== -/

/-- Value of one hex digit byte, as parsed by sscanf %x. -/
def hexDigitVal (b : Nat) : Option Nat :=
  if 0x30 ≤ b ∧ b ≤ 0x39 then some (b - 0x30)
  else if 0x61 ≤ b ∧ b ≤ 0x66 then some (b - 0x61 + 10)
  else if 0x41 ≤ b ∧ b ≤ 0x46 then some (b - 0x41 + 10)
  else none

/-- Model of hex_to_bytes (src/bot.c lines 130-139): consume pairs of hex
    digits while at least two bytes remain, fewer than `maxb` bytes are
    written and the pair parses; stop otherwise. -/
def hex_to_bytes : List Nat → Nat → List Nat
  | b1 :: b2 :: rest, maxb + 1 =>
    match hexDigitVal b1, hexDigitVal b2 with
    | some d1, some d2 => (d1 * 16 + d2) :: hex_to_bytes rest maxb
    | _, _ => []
  | _, _ => []

/-- Compute the 6-digit TOTP code from the raw secret and the time step
    (src/bot.c totp_code).  The external hmac_sha1 (botlib) is passed in as
    a function from key and message to the 20-byte digest. -/
def totp_code (hmac : List Nat → List Nat → List Nat) (secret : List Nat)
    (time_step : Nat) : Nat :=
  let msg := (List.range 8).map (fun i => (time_step >>> (8 * (7 - i))) &&& 0xff)
  let hash := hmac secret msg
  let offset := (hash.getD 19 0) &&& 0x0f
  let code := ((hash.getD offset 0 &&& 0x7f) <<< 24) |||
              ((hash.getD (offset + 1) 0) <<< 16) |||
              ((hash.getD (offset + 2) 0) <<< 8) |||
              (hash.getD (offset + 3) 0)
  code % 1000000

/- ===================================================================
   Key-value store (botlib kvGet / kvSet contract)
   =================================================================== -/

/-- Persistent store lookup. -/
def kvGet (kv : List (String × String)) (k : String) : Option String :=
  (kv.find? (fun p => p.1 == k)).map (fun p => p.2)

/-- Persistent store update (replaces any previous binding of the key). -/
def kvSet (kv : List (String × String)) (k v : String) : List (String × String) :=
  (k, v) :: kv.filter (fun p => p.1 != k)

def U64 : Nat := 2 ^ 64
def U32 : Nat := 2 ^ 32

/-- Check the submitted code against the TOTP codes at time steps
    now/30 - 1, now/30 and now/30 + 1 (src/bot.c totp_verify).  The C
    uint64 arithmetic on the time step is modelled with explicit mod 2^64
    wrap-around and the (uint32_t) cast of atoi with mod 2^32. -/
def totp_verify (hmac : List Nat → List Nat → List Nat) (kv : List (String × String))
    (now : Int) (code_str : List Nat) : Bool :=
  match kvGet kv ("totp_secret") with
  | none => false
  | some hx =>
    let secret := hex_to_bytes (strBytes hx) 20
    if secret.length = 20 then
      let ts := (now % (U64 : Int)).toNat / 30
      let input := ((atoi code_str) % (U32 : Int)).toNat
      (totp_code hmac secret ((ts + (U64 - 1)) % U64) == input) ||
      (totp_code hmac secret (ts % U64) == input) ||
      (totp_code hmac secret ((ts + 1) % U64) == input)
    else false

/- ===================================================================
   Global bot state, requests, environment and observable actions
   =================================================================== -/

/-- Window descriptor (src/platform.h WinInfo); the owner and title are
    byte strings of at most 127 / 255 bytes in C, arbitrary here. -/
structure WinInfo where
  window_id : Nat
  pid : Nat
  owner : List Nat
  title : List Nat
deriving DecidableEq, Repr

def defaultWin : WinInfo := ⟨0, 0, [], []⟩

/-- The mutable globals of src/bot.c together with the persistent store. -/
structure BotState where
  weakSecurity : Bool
  authenticated : Bool
  lastActivity : Int
  otpTimeout : Int
  connected : Bool
  connectedWid : Nat
  connectedPid : Nat
  connectedOwner : List Nat
  connectedTitle : List Nat
  windowList : List WinInfo
  kv : List (String × String)
deriving DecidableEq, Repr

/-- One inbound request (botlib BotRequest fields used by handle_request). -/
structure BotRequest where
  frm : Int
  target : Int
  msg_id : Int
  request : List Nat
  is_callback : Bool
  callback_data : String
deriving DecidableEq, Repr

/-- Behaviour of the external collaborators during one request: the clock,
    the window backend answers and the external HMAC-SHA1. -/
structure Env where
  now : Int
  windows : List WinInfo
  hmac : List Nat → List Nat → List Nat
  winExists : Bool
  liveWid : Nat
  captureOk : Bool

/-- Reply messages sent over the messaging gateway, one constructor per
    distinct sds construction in src/bot.c. -/
inductive Msg where
  /-- The fixed text sent at src/bot.c line 501. -/
  | authAck
  /-- The fixed text sent at src/bot.c line 503. -/
  | enterOtp
  /-- build_list_message over the freshly refreshed window list. -/
  | listing (ws : List WinInfo)
  /-- build_help_message. -/
  | helpText
  /-- The confirmation at src/bot.c line 545. -/
  | otpTimeoutSet (secs : Int)
  /-- The fixed text sent at src/bot.c line 556. -/
  | invalidWindow
  /-- The connection message built at src/bot.c lines 569-574. -/
  | connectedTo (owner title : List Nat)
  /-- The message built at src/bot.c lines 592-595. -/
  | windowClosed (ws : List WinInfo)
deriving DecidableEq, Repr

/-- Observable effects of one handle_request run, in order. -/
inductive BotAction where
  | sendMessage (target : Int) (m : Msg)
  | sendImage (target : Int)
  | editImage (target : Int) (msg_id : Int)
  | answerCallback
  | raiseWindow (pid : Nat) (wid : Nat)
  | sentKeys (evs : List KeyEvent)
deriving DecidableEq, Repr

/- ===================================================================
   Command router (src/bot.c handle_request and helpers)
   =================================================================== -/

def OWNER_KEY : String := "owner_id"
def REFRESH_DATA : String := "refresh"

/-- Bytes of the literal ".list". -/
def dotListB : List Nat := [0x2E, 0x6C, 0x69, 0x73, 0x74]

/-- Bytes of the literal ".help". -/
def dotHelpB : List Nat := [0x2E, 0x68, 0x65, 0x6C, 0x70]

/-- Bytes of the literal ".otptimeout" (11 bytes). -/
def dotOtpTimeoutB : List Nat :=
  [0x2E, 0x6F, 0x74, 0x70, 0x74, 0x69, 0x6D, 0x65, 0x6F, 0x75, 0x74]

/-- Model of C strtoll(s, NULL, 10) on a stored string. -/
def strtoll (s : String) : Int := atoi (strBytes s)

/-- disconnect (src/bot.c lines 293-299). -/
def disconnect (st : BotState) : BotState :=
  { st with connected := false, connectedWid := 0, connectedPid := 0,
            connectedOwner := [], connectedTitle := [] }

/-- send_screenshot (src/bot.c lines 452-455): nothing is sent when no
    window is connected or the backend capture fails. -/
def send_screenshot (env : Env) (st : BotState) (chat_id : Int) : List BotAction :=
  if st.connected && env.captureOk then [.sendImage chat_id] else []

/-- refresh_screenshot (src/bot.c lines 457-460). -/
def refresh_screenshot (env : Env) (st : BotState) (chat_id msg_id : Int) : List BotAction :=
  if st.connected && env.captureOk then [.editImage chat_id msg_id] else []

/-- The six-digit shape test of src/bot.c lines 494-497. -/
def is_otp_format (req : List Nat) : Bool :=
  req.length == 6 && req.all (fun b => isdigit b)

/-- Command dispatch: src/bot.c handle_request after the authentication
    gate (lines 510-605). -/
def dispatch (env : Env) (st : BotState) (br : BotRequest) : BotState × List BotAction :=
  if br.is_callback then
    if br.callback_data == REFRESH_DATA && st.connected then
      (st, .answerCallback :: refresh_screenshot env st br.target br.msg_id)
    else (st, [.answerCallback])
  else
    let req := br.request
    if strcaseeq req dotListB then
      let st1 := { disconnect st with windowList := env.windows }
      (st1, [.sendMessage br.target (.listing env.windows)])
    else if strcaseeq req dotHelpB then
      (st, [.sendMessage br.target (.helpText)])
    else if strncaseeq req dotOtpTimeoutB 11 then
      let arg := (req.drop 11).dropWhile (fun b => b == 0x20)
      let secs0 := atoi arg
      let secs1 := if secs0 < 30 then 30 else secs0
      let secs := if secs1 > 28800 then 28800 else secs1
      let st1 := { st with otpTimeout := secs,
                           kv := kvSet st.kv ("otp_timeout") (toString secs) }
      (st1, [.sendMessage br.target (.otpTimeoutSet secs)])
    else if req.getD 0 0 = 0x2E ∧ isdigit (req.getD 1 0) = true then
      let n := atoi (req.drop 1)
      let st1 := { st with windowList := env.windows }
      if n < 1 ∨ (env.windows.length : Int) < n then
        (st1, [.sendMessage br.target (.invalidWindow)])
      else
        let w := env.windows.getD (n.toNat - 1) defaultWin
        let st2 := { st1 with connected := true, connectedWid := w.window_id,
                              connectedPid := w.pid,
                              connectedOwner := w.owner.take 127,
                              connectedTitle := w.title.take 255 }
        (st2, [.sendMessage br.target (.connectedTo st2.connectedOwner st2.connectedTitle),
               .raiseWindow w.pid w.window_id] ++ send_screenshot env st2 br.target)
    else if !st.connected then
      let st1 := { st with windowList := env.windows }
      (st1, [.sendMessage br.target (.listing env.windows)])
    else if !env.winExists then
      let st1 := { disconnect st with windowList := env.windows }
      (st1, [.sendMessage br.target (.windowClosed env.windows)])
    else
      let st1 := { st with connectedWid := env.liveWid }
      (st1, [.raiseWindow st1.connectedPid st1.connectedWid,
             .sentKeys (send_keys_events req)] ++ send_screenshot env st1 br.target)

/-- The TOTP gate (src/bot.c lines 486-508) followed by dispatch, as run
    for a request that passed the owner filter. -/
def gate (env : Env) (st : BotState) (br : BotRequest) : BotState × List BotAction :=
  if st.weakSecurity then dispatch env st br
  else if st.authenticated = false ∨ env.now - st.lastActivity > st.otpTimeout then
    let st2 := { st with authenticated := false }
    if br.is_callback then (st2, [.answerCallback])
    else if is_otp_format br.request && totp_verify env.hmac st2.kv env.now br.request then
      ({ st2 with authenticated := true, lastActivity := env.now },
       [.sendMessage br.target (.authAck)])
    else (st2, [.sendMessage br.target (.enterOtp)])
  else
    dispatch env { st with lastActivity := env.now } br

/-- src/bot.c handle_request (lines 462-609): owner pinning and silent
    non-owner drop, then the TOTP gate, then command dispatch.  Returns the
    final state and the ordered observable actions. -/
def handle_request (env : Env) (st : BotState) (br : BotRequest) :
    BotState × List BotAction :=
  let owner0 : Int :=
    match kvGet st.kv OWNER_KEY with
    | some s => strtoll s
    | none => 0
  let st1 := if owner0 = 0 then
    { st with kv := kvSet st.kv OWNER_KEY (toString br.frm) } else st
  let owner_id := if owner0 = 0 then br.frm else owner0
  if br.frm ≠ owner_id then (st1, [])
  else gate env st1 br

/- ===================================================================
   Byte constants and specification-side definitions used by the claims
   =================================================================== -/

/-- UTF-8 bytes of the red heart with variation selector (Ctrl glyph). -/
def redHeartB : List Nat := [0xE2, 0x9D, 0xA4, 0xEF, 0xB8, 0x8F]

/-- UTF-8 bytes of the yellow heart (Escape-now glyph). -/
def yellowHeartB : List Nat := [0xF0, 0x9F, 0x92, 0x9B]

/-- UTF-8 bytes of the purple heart (suppress-newline marker glyph). -/
def purpleHeartB : List Nat := [0xF0, 0x9F, 0x92, 0x9C]

/-- Whether an emission switches the had_mods flag on: it carried a nonzero
    modifier mask, or it is the Escape emitted for the yellow heart (which
    sets had_mods unconditionally in src/bot.c line 349). -/
def marksHadMods (e : KeyEvent) : Bool :=
  (e.mods != 0) || (e.special == PLAT_KEY_ESCAPE)

/-- Running value of the last_was_nl flag over a list of emissions. -/
def lastNlFlag : Bool → List KeyEvent → Bool
  | lnl, [] => lnl
  | _, e :: evs => lastNlFlag (e.special == PLAT_KEY_RETURN) evs

/-- The last emitted event exists and is a Return. -/
def lastIsReturn (evs : List KeyEvent) : Bool :=
  match evs.getLast? with
  | some e => e.special == PLAT_KEY_RETURN
  | none => false

/-- The trailing-Return suppression rule exactly as the specification
    states it: the marker glyph was present, or exactly one event was
    emitted and that event carried a modifier, or the last emitted event
    was already a Return. -/
def spec_suppress_return (text : List Nat) : Bool :=
  ends_with_purple_heart text ||
  (match (scan_result text).events with
   | [e] => e.mods != 0
   | _ => false) ||
  lastIsReturn (scan_result text).events

/-- Clamp into [30, 28800], as the specification phrases the otptimeout
    rule. -/
def spec_clamp (n : Int) : Int := max 30 (min 28800 n)

/- Concrete fixtures used to instantiate theorems with hypotheses. -/

/-- A sample window descriptor. -/
def winA : WinInfo := ⟨7, 9, [0x41], [0x54]⟩

/-- A sample environment with one listed window. -/
def envW : Env := ⟨1000, [winA], fun _ _ => [], true, 7, true⟩

/-- A sample authenticated, fresh, disconnected state owned by 42. -/
def stW : BotState :=
  ⟨false, true, 1000, 300, false, 0, 0, [], [], [], [(OWNER_KEY, "42")]⟩

/-- The same state but currently connected to window 5 of process 6. -/
def stWC : BotState :=
  ⟨false, true, 1000, 300, true, 5, 6, [0x41], [0x42], [], [(OWNER_KEY, "42")]⟩

/-- The same state but with the last activity long expired. -/
def stWE : BotState :=
  ⟨false, true, 0, 300, false, 0, 0, [], [], [], [(OWNER_KEY, "42")]⟩

/-- A 40-hex-digit (all zero) stored TOTP secret. -/
def hexZeros : String := "0000000000000000000000000000000000000000"

/-- An unauthenticated state with owner 42 and the zero secret stored. -/
def stO : BotState :=
  ⟨false, false, 0, 300, false, 0, 0, [], [], [],
   [(OWNER_KEY, "42"), ("totp_secret", hexZeros)]⟩

/-- An environment whose clock reads 60 and whose HMAC is identically the
    zero digest. -/
def envO : Env := ⟨60, [], fun _ _ => List.replicate 20 0, false, 0, false⟩

/- ===================================================================
   Basic lemmas about the router
   =================================================================== -/

/-- Any fuel of at least the string length runs the send_keys loop to
    completion: the fuel counter is a pure accounting device. -/
theorem scanLoop_fuel : ∀ (f : Nat) (bs : List Nat) (mods keycount : Nat)
    (hm lnl : Bool), bs.length ≤ f →
    scanLoop f bs mods keycount hm lnl = scanKeys bs mods keycount hm lnl := by
  intro f
  induction f using Nat.strong_induction_on with
  | _ f ih =>
    intro bs mods keycount hm lnl hlen
    match f, bs with
    | f, [] => cases f <;> rfl
    | 0, b :: rest => simp at hlen
    | g + 1, b :: rest =>
      have hg : rest.length ≤ g := by
        simp only [List.length_cons] at hlen; omega
      have key : ∀ (l2 : List Nat) (m2 k2 : Nat) (h2 l2f : Bool), l2.length ≤ rest.length →
          scanLoop g l2 m2 k2 h2 l2f = scanLoop rest.length l2 m2 k2 h2 l2f := by
        intro l2 m2 k2 h2 l2f hl2
        rw [ih g (by omega) l2 m2 k2 h2 l2f (by omega)]
        unfold scanKeys
        rcases Nat.lt_or_ge l2.length rest.length with hlt | hge
        · rw [ih rest.length (by omega) l2 m2 k2 h2 l2f (le_of_lt hlt)]; rfl
        · rw [le_antisymm hl2 hge]
      show scanLoop (g + 1) (b :: rest) mods keycount hm lnl
          = scanKeys (b :: rest) mods keycount hm lnl
      unfold scanKeys
      simp only [List.length_cons]
      rw [scanLoop, scanLoop]
      by_cases hr : 0 < match_red_heart (b :: rest)
      · simp only [if_pos hr]
        exact key _ _ _ _ _ (by simp only [List.length_drop, List.length_cons]; omega)
      by_cases ho : 0 < match_orange_heart (b :: rest)
      · simp only [if_neg hr, if_pos ho]
        rw [key _ _ _ _ _ (by simp only [List.length_drop, List.length_cons]; omega)]
      by_cases hc : 0 < (match_colored_heart (b :: rest)).1
      · simp only [if_neg hr, if_neg ho, if_pos hc]
        by_cases hy : (match_colored_heart (b :: rest)).2 = 0x59
        · simp only [if_pos hy]
          rw [key _ _ _ _ _ (by simp only [List.length_drop, List.length_cons]; omega)]
        by_cases hbl : (match_colored_heart (b :: rest)).2 = 0x42
        · simp only [if_neg hy, if_pos hbl]
          exact key _ _ _ _ _ (by simp only [List.length_drop, List.length_cons]; omega)
        · simp only [if_neg hy, if_neg hbl]
          exact key _ _ _ _ _ (by simp only [List.length_drop, List.length_cons]; omega)
      have hdrop : (rest.drop 1).length ≤ rest.length := by
        simp only [List.length_drop]; omega
      by_cases hn : b = 0x5C ∧ rest.headD 0 = 0x6E
      · simp only [if_neg hr, if_neg ho, if_neg hc, if_pos hn]
        rw [key _ _ _ _ _ hdrop]
      by_cases ht : b = 0x5C ∧ rest.headD 0 = 0x74
      · simp only [if_neg hr, if_neg ho, if_neg hc, if_neg hn, if_pos ht]
        rw [key _ _ _ _ _ hdrop]
      by_cases hbk : b = 0x5C ∧ rest.headD 0 = 0x5C
      · simp only [if_neg hr, if_neg ho, if_neg hc, if_neg hn, if_neg ht, if_pos hbk]
        rw [key _ _ _ _ _ hdrop]
      · simp only [if_neg hr, if_neg ho, if_neg hc, if_neg hn, if_neg ht, if_neg hbk]
        rw [key _ _ _ _ _ (le_refl _)]

theorem tolower_of_digit {d : Nat} (hd : isdigit d = true) : tolower d = d := by
  simp only [isdigit, Bool.and_eq_true, decide_eq_true_eq] at hd
  have h : ¬((0x41 ≤ d && d ≤ 0x5A) = true) := by
    simp only [Bool.and_eq_true, decide_eq_true_eq]
    omega
  simp [tolower, h]

theorem kvGet_kvSet_same (kv : List (String × String)) (k v : String) :
    kvGet (kvSet kv k v) k = some v := by
  simp [kvGet, kvSet]

theorem dispatch_lastActivity (env : Env) (st : BotState) (br : BotRequest) :
    (dispatch env st br).1.lastActivity = st.lastActivity := by
  unfold dispatch
  simp only []
  repeat' split
  all_goals simp [disconnect]

theorem dispatch_authenticated (env : Env) (st : BotState) (br : BotRequest) :
    (dispatch env st br).1.authenticated = st.authenticated := by
  unfold dispatch
  simp only []
  repeat' split
  all_goals simp [disconnect]

theorem handle_request_owner (env : Env) (st : BotState) (br : BotRequest) (s : String)
    (ho : kvGet st.kv OWNER_KEY = some s) (hsv : strtoll s = br.frm) (hnz : br.frm ≠ 0) :
    handle_request env st br = gate env st br := by
  unfold handle_request
  rw [ho]
  simp [hsv, hnz]

theorem not_list_of_digit (d : Nat) (rest : List Nat) (hd : isdigit d = true) :
    strcaseeq (0x2E :: d :: rest) dotListB = false := by
  have ht := tolower_of_digit hd
  simp only [isdigit, Bool.and_eq_true, decide_eq_true_eq] at hd
  simp only [strcaseeq, dotListB, List.map_cons, List.map_nil]
  rw [beq_eq_false_iff_ne]
  intro h
  have h1 : tolower d = tolower 0x6C := by
    have h2 := congrArg (fun l => l.getD 1 0) h
    simpa using h2
  rw [ht] at h1
  have h3 : tolower 0x6C = 0x6C := by decide
  rw [h3] at h1
  omega

theorem not_help_of_digit (d : Nat) (rest : List Nat) (hd : isdigit d = true) :
    strcaseeq (0x2E :: d :: rest) dotHelpB = false := by
  have ht := tolower_of_digit hd
  simp only [isdigit, Bool.and_eq_true, decide_eq_true_eq] at hd
  simp only [strcaseeq, dotHelpB, List.map_cons, List.map_nil]
  rw [beq_eq_false_iff_ne]
  intro h
  have h1 : tolower d = tolower 0x68 := by
    have h2 := congrArg (fun l => l.getD 1 0) h
    simpa using h2
  rw [ht] at h1
  have h3 : tolower 0x68 = 0x68 := by decide
  rw [h3] at h1
  omega

theorem not_otptimeout_of_digit (d : Nat) (rest : List Nat) (hd : isdigit d = true) :
    strncaseeq (0x2E :: d :: rest) dotOtpTimeoutB 11 = false := by
  have ht := tolower_of_digit hd
  simp only [isdigit, Bool.and_eq_true, decide_eq_true_eq] at hd
  simp only [strncaseeq, dotOtpTimeoutB, List.cons_append, List.nil_append,
    List.take_succ_cons, List.take_nil, List.map_cons, List.map_nil]
  rw [beq_eq_false_iff_ne]
  intro h
  have h1 : tolower d = tolower 0x6F := by
    have h2 := congrArg (fun l => l.getD 1 0) h
    simpa using h2
  rw [ht] at h1
  have h3 : tolower 0x6F = 0x6F := by decide
  rw [h3] at h1
  omega

theorem otp_prefix_matches (arg : List Nat) :
    strncaseeq (dotOtpTimeoutB ++ arg) dotOtpTimeoutB 11 = true := by
  simp only [strncaseeq, dotOtpTimeoutB, List.cons_append, List.nil_append,
    List.take_succ_cons, List.take_nil, List.map_cons, List.map_nil]
  rw [beq_iff_eq]
  simp

theorem otp_prefix_not_list (arg : List Nat) :
    strcaseeq (dotOtpTimeoutB ++ arg) dotListB = false := by
  simp only [strcaseeq, dotOtpTimeoutB, dotListB, List.cons_append, List.nil_append,
    List.map_cons, List.map_nil]
  rw [beq_eq_false_iff_ne]
  intro h
  have h2 := congrArg List.length h
  simp [List.length_map] at h2

theorem otp_prefix_not_help (arg : List Nat) :
    strcaseeq (dotOtpTimeoutB ++ arg) dotHelpB = false := by
  simp only [strcaseeq, dotOtpTimeoutB, dotHelpB, List.cons_append, List.nil_append,
    List.map_cons, List.map_nil]
  rw [beq_eq_false_iff_ne]
  intro h
  have h2 := congrArg List.length h
  simp [List.length_map] at h2

theorem clamp_code_eq (a : Int) :
    (if 28800 < (if a < 30 then (30 : Int) else a) then (28800 : Int)
     else if a < 30 then (30 : Int) else a) = spec_clamp a := by
  unfold spec_clamp
  split_ifs <;> omega

theorem atoi_digit_lead {d : Nat} (rest : List Nat) (hd : isdigit d = true) :
    atoi (d :: rest) = (digitsVal (d :: rest) 0 : Int) := by
  have hb : 0x30 ≤ d ∧ d ≤ 0x39 := by simpa [isdigit] using hd
  have hs : isspace d = false := by
    simp only [isspace, Bool.or_eq_false_iff, Bool.and_eq_false_iff]
    constructor
    · simp only [beq_eq_false_iff_ne, ne_eq]
      omega
    · right
      simp only [decide_eq_false_iff_not]
      omega
  unfold atoi
  simp only [List.dropWhile_cons, hs, Bool.false_eq_true, if_false]
  split
  · rename_i heq
    rw [List.cons.injEq] at heq
    obtain ⟨h1, h2⟩ := heq
    omega
  · rename_i heq
    rw [List.cons.injEq] at heq
    obtain ⟨h1, h2⟩ := heq
    omega
  · rfl

/-- The dot-digit dispatch branch (src/bot.c lines 551-581), reached for
    every non-callback request whose first byte is a dot and second byte a
    digit. -/
theorem digit_dispatch (env : Env) (st : BotState) (br : BotRequest) (d : Nat)
    (rest : List Nat) (hcb : br.is_callback = false)
    (hreq : br.request = 0x2E :: d :: rest) (hd : isdigit d = true) :
    dispatch env st br =
      if atoi (d :: rest) < 1 ∨ (env.windows.length : Int) < atoi (d :: rest) then
        ({ st with windowList := env.windows }, [.sendMessage br.target (.invalidWindow)])
      else
        (({ st with
            windowList := env.windows, connected := true,
            connectedWid := (env.windows.getD ((atoi (d :: rest)).toNat - 1) defaultWin).window_id,
            connectedPid := (env.windows.getD ((atoi (d :: rest)).toNat - 1) defaultWin).pid,
            connectedOwner := (env.windows.getD ((atoi (d :: rest)).toNat - 1) defaultWin).owner.take 127,
            connectedTitle := (env.windows.getD ((atoi (d :: rest)).toNat - 1) defaultWin).title.take 255 }),
         [.sendMessage br.target (.connectedTo
            ((env.windows.getD ((atoi (d :: rest)).toNat - 1) defaultWin).owner.take 127)
            ((env.windows.getD ((atoi (d :: rest)).toNat - 1) defaultWin).title.take 255)),
          .raiseWindow (env.windows.getD ((atoi (d :: rest)).toNat - 1) defaultWin).pid
            (env.windows.getD ((atoi (d :: rest)).toNat - 1) defaultWin).window_id]
         ++ (if env.captureOk then [.sendImage br.target] else [])) := by
  unfold dispatch
  simp only []
  rw [if_neg (by simp [hcb])]
  rw [hreq]
  simp only [not_list_of_digit _ _ hd, not_help_of_digit _ _ hd,
    not_otptimeout_of_digit _ _ hd, Bool.false_eq_true, if_false]
  rw [if_pos (by exact ⟨rfl, hd⟩)]
  simp only [List.drop_succ_cons, List.drop_zero, send_screenshot, Bool.true_and]

theorem digitsVal_lt (s : List Nat) : ∀ acc : Nat, digitsVal s acc < (acc + 1) * 10 ^ s.length := by
  induction s with
  | nil =>
    intro acc
    simp [digitsVal]
  | cons b rest ih =>
    intro acc
    unfold digitsVal
    by_cases hb : isdigit b = true
    · rw [if_pos hb]
      have h9 : b - 0x30 ≤ 9 := by
        simp only [isdigit, Bool.and_eq_true, decide_eq_true_eq] at hb
        omega
      have h1 := ih (acc * 10 + (b - 0x30))
      have h2 : (acc * 10 + (b - 0x30) + 1) * 10 ^ rest.length
          ≤ (acc + 1) * 10 ^ (b :: rest).length := by
        simp only [List.length_cons, pow_succ]
        calc (acc * 10 + (b - 0x30) + 1) * 10 ^ rest.length
            ≤ ((acc + 1) * 10) * 10 ^ rest.length :=
              Nat.mul_le_mul_right _ (by omega)
          _ = (acc + 1) * (10 ^ rest.length * 10) := by ring
      exact lt_of_lt_of_le h1 h2
    · rw [if_neg hb]
      have : 0 < 10 ^ (b :: rest).length := Nat.pos_pow_of_pos _ (by norm_num)
      calc acc < acc + 1 := Nat.lt_succ_self acc
        _ ≤ (acc + 1) * 10 ^ (b :: rest).length := Nat.le_mul_of_pos_right _ this

theorem otp_input_eq (req : List Nat) (h6 : req.length = 6)
    (hdig : ∀ b ∈ req, isdigit b = true) :
    ((atoi req) % (U32 : Int)).toNat = digitsVal req 0 := by
  rcases req with _ | ⟨b, tail⟩
  · simp at h6
  · have hb : isdigit b = true := hdig b (by simp)
    rw [atoi_digit_lead tail hb]
    have hbound : digitsVal (b :: tail) 0 < 10 ^ 6 := by
      have h := digitsVal_lt (b :: tail) 0
      rw [h6] at h
      simpa using h
    have h1 : ((digitsVal (b :: tail) 0 : Int)) % (U32 : Int)
        = (digitsVal (b :: tail) 0 : Int) := by
      apply Int.emod_eq_of_lt
      · exact Int.natCast_nonneg _
      · have : digitsVal (b :: tail) 0 < U32 := by
          apply lt_trans hbound
          norm_num [U32]
        exact_mod_cast this
    rw [h1]
    simp

/-- The acceptance test of the OTP path: the request shape check combined
    with totp_verify is equivalent to the submitted digits matching one of
    the three TOTP codes of the current clock window. -/
theorem verify_iff (hmac : List Nat → List Nat → List Nat) (kv : List (String × String))
    (now : Int) (req : List Nat) (hx : String)
    (hsec : kvGet kv ("totp_secret") = some hx)
    (hlen : (hex_to_bytes (strBytes hx) 20).length = 20)
    (hlo : 30 ≤ now) (hhi : now < (U64 : Int)) :
    (is_otp_format req && totp_verify hmac kv now req) = true ↔
      (req.length = 6 ∧ (∀ b ∈ req, isdigit b = true) ∧
       ∃ t : Nat, (t = now.toNat / 30 - 1 ∨ t = now.toNat / 30 ∨ t = now.toNat / 30 + 1) ∧
         totp_code hmac (hex_to_bytes (strBytes hx) 20) t = digitsVal req 0) := by
  have h0 : (0 : Int) ≤ now := by omega
  have hmod : now % (U64 : Int) = now := Int.emod_eq_of_lt h0 hhi
  have hU : U64 = 18446744073709551616 := by norm_num [U64]
  rw [hU] at hhi
  have hnt : 30 ≤ now.toNat := by omega
  have hntu : now.toNat < 18446744073709551616 := by omega
  have hw1 : (now.toNat / 30 + (U64 - 1)) % U64 = now.toNat / 30 - 1 := by
    rw [hU]
    omega
  have hw2 : now.toNat / 30 % U64 = now.toNat / 30 := by
    rw [hU]
    omega
  have hw3 : (now.toNat / 30 + 1) % U64 = now.toNat / 30 + 1 := by
    rw [hU]
    omega
  rw [Bool.and_eq_true]
  unfold totp_verify
  simp only [hsec]
  rw [if_pos hlen]
  rw [hmod, hw1, hw2, hw3]
  constructor
  · rintro ⟨hotp, hver⟩
    simp only [is_otp_format, Bool.and_eq_true, beq_iff_eq, List.all_eq_true] at hotp
    have hinp := otp_input_eq req hotp.1 hotp.2
    rw [hinp] at hver
    simp only [Bool.or_eq_true, beq_iff_eq] at hver
    refine ⟨hotp.1, hotp.2, ?_⟩
    rcases hver with (h | h) | h
    · exact ⟨now.toNat / 30 - 1, Or.inl rfl, h⟩
    · exact ⟨now.toNat / 30, Or.inr (Or.inl rfl), h⟩
    · exact ⟨now.toNat / 30 + 1, Or.inr (Or.inr rfl), h⟩
  · rintro ⟨h6, hdig, t, ht, hcode⟩
    have hotp : is_otp_format req = true := by
      simp only [is_otp_format, Bool.and_eq_true, beq_iff_eq, List.all_eq_true]
      exact ⟨h6, hdig⟩
    refine ⟨hotp, ?_⟩
    have hinp := otp_input_eq req h6 hdig
    rw [hinp]
    simp only [Bool.or_eq_true, beq_iff_eq]
    rcases ht with rfl | rfl | rfl
    · exact Or.inl (Or.inl hcode)
    · exact Or.inl (Or.inr hcode)
    · exact Or.inr hcode

/- ===================================================================
   Claim C1
   =================================================================== -/

/-- C1: a request whose sender differs from the pinned owner identity is
    dropped before any authentication or command logic: no reply of any
    kind (no message, no image, not even a callback acknowledgment) is
    produced and the whole state is left unchanged, whatever the request
    content, the callback flag, the weak-security flag and the
    authentication state. -/
theorem nonowner_request_silently_dropped (env : Env) (st : BotState) (br : BotRequest)
    (s : String) (ho : kvGet st.kv OWNER_KEY = some s)
    (hnz : strtoll s ≠ 0) (hne : br.frm ≠ strtoll s) :
    handle_request env st br = (st, []) := by
  unfold handle_request
  rw [ho]
  simp [hnz, hne]

/-- Witness for C1 at a concrete non-owner request. -/
theorem nonowner_request_silently_dropped_wit :
    handle_request ⟨0, [], fun _ _ => [], false, 0, false⟩
      ⟨false, true, 0, 300, false, 0, 0, [], [], [], [(OWNER_KEY, "42")]⟩
      ⟨7, 7, 0, dotListB, false, ("")⟩ =
    (⟨false, true, 0, 300, false, 0, 0, [], [], [], [(OWNER_KEY, "42")]⟩, []) :=
  nonowner_request_silently_dropped _ _ _ ("42") (by rfl) (by decide) (by decide)

/- ===================================================================
   Claim C6
   =================================================================== -/

/-- C6: with the weak-security flag set, the entire access gate is
    bypassed for owner requests: handle_request is exactly command
    dispatch, with no OTP check and the authentication state untouched. -/
theorem weak_security_skips_gate (env : Env) (st : BotState) (br : BotRequest)
    (s : String) (ho : kvGet st.kv OWNER_KEY = some s) (hsv : strtoll s = br.frm)
    (hnz : br.frm ≠ 0) (hw : st.weakSecurity = true) :
    handle_request env st br = dispatch env st br ∧
    (handle_request env st br).1.authenticated = st.authenticated := by
  have h := handle_request_owner env st br s ho hsv hnz
  rw [h]
  unfold gate
  rw [if_pos hw]
  exact ⟨rfl, dispatch_authenticated env st br⟩

/-- Witness for C6 at a concrete weak-security request. -/
theorem weak_security_skips_gate_wit :
    (handle_request ⟨0, [], fun _ _ => [], false, 0, false⟩
      ⟨true, false, 0, 300, false, 0, 0, [], [], [], [(OWNER_KEY, "42")]⟩
      ⟨42, 42, 0, dotHelpB, false, ("")⟩ =
     dispatch ⟨0, [], fun _ _ => [], false, 0, false⟩
      ⟨true, false, 0, 300, false, 0, 0, [], [], [], [(OWNER_KEY, "42")]⟩
      ⟨42, 42, 0, dotHelpB, false, ("")⟩) ∧
    (handle_request ⟨0, [], fun _ _ => [], false, 0, false⟩
      ⟨true, false, 0, 300, false, 0, 0, [], [], [], [(OWNER_KEY, "42")]⟩
      ⟨42, 42, 0, dotHelpB, false, ("")⟩).1.authenticated = false :=
  weak_security_skips_gate _ _ _ ("42") (by rfl) (by decide) (by decide) (by rfl)

/- ===================================================================
   Claim C7
   =================================================================== -/

/-- C7: for every argument text handed to .otptimeout by an authenticated,
    non-expired owner request, the in-memory timeout and the persisted
    value both become the parsed argument clamped into [30, 28800], and the
    only reply confirms that clamped value; no argument is ever rejected. -/
theorem otptimeout_clamped_persisted (env : Env) (st : BotState) (br : BotRequest)
    (s : String) (arg : List Nat)
    (ho : kvGet st.kv OWNER_KEY = some s) (hsv : strtoll s = br.frm) (hnz : br.frm ≠ 0)
    (hw : st.weakSecurity = false) (ha : st.authenticated = true)
    (hfr : env.now - st.lastActivity ≤ st.otpTimeout) (hcb : br.is_callback = false)
    (hreq : br.request = dotOtpTimeoutB ++ arg) :
    (handle_request env st br).1.otpTimeout
        = spec_clamp (atoi (arg.dropWhile (fun b => b == 0x20))) ∧
    kvGet (handle_request env st br).1.kv ("otp_timeout")
        = some (toString (spec_clamp (atoi (arg.dropWhile (fun b => b == 0x20))))) ∧
    (handle_request env st br).2
        = [.sendMessage br.target
            (.otpTimeoutSet (spec_clamp (atoi (arg.dropWhile (fun b => b == 0x20)))))] := by
  have hgo := handle_request_owner env st br s ho hsv hnz
  have hdrop : (dotOtpTimeoutB ++ arg).drop 11 = arg := List.drop_left dotOtpTimeoutB arg
  have hgate : ¬(st.authenticated = false ∨ env.now - st.lastActivity > st.otpTimeout) := by
    rintro (h | h)
    · simp [ha] at h
    · omega
  rw [hgo]
  unfold gate
  rw [if_neg (by simp [hw])]
  rw [if_neg hgate]
  unfold dispatch
  simp only []
  rw [if_neg (by simp [hcb])]
  rw [hreq]
  simp only [otp_prefix_not_list, otp_prefix_not_help, otp_prefix_matches, hdrop,
    Bool.false_eq_true, if_false, if_true]
  simp only [clamp_code_eq, kvGet_kvSet_same]
  simp

/-- Witness for C7 on the two examples from the specification:
    .otptimeout 5 clamps to 30 and .otptimeout 999999 clamps to 28800. -/
theorem otptimeout_clamped_persisted_wit :
    ((handle_request ⟨1000, [], fun _ _ => [], false, 0, false⟩
        ⟨false, true, 1000, 300, false, 0, 0, [], [], [], [(OWNER_KEY, "42")]⟩
        ⟨42, 42, 0, dotOtpTimeoutB ++ strBytes (" 5"), false, ("")⟩).1.otpTimeout = 30 ∧
     kvGet (handle_request ⟨1000, [], fun _ _ => [], false, 0, false⟩
        ⟨false, true, 1000, 300, false, 0, 0, [], [], [], [(OWNER_KEY, "42")]⟩
        ⟨42, 42, 0, dotOtpTimeoutB ++ strBytes (" 5"), false, ("")⟩).1.kv ("otp_timeout")
        = some ("30") ∧
     (handle_request ⟨1000, [], fun _ _ => [], false, 0, false⟩
        ⟨false, true, 1000, 300, false, 0, 0, [], [], [], [(OWNER_KEY, "42")]⟩
        ⟨42, 42, 0, dotOtpTimeoutB ++ strBytes (" 5"), false, ("")⟩).2
        = [.sendMessage 42 (.otpTimeoutSet 30)]) ∧
    ((handle_request ⟨1000, [], fun _ _ => [], false, 0, false⟩
        ⟨false, true, 1000, 300, false, 0, 0, [], [], [], [(OWNER_KEY, "42")]⟩
        ⟨42, 42, 0, dotOtpTimeoutB ++ strBytes (" 999999"), false, ("")⟩).1.otpTimeout
        = 28800) :=
  ⟨otptimeout_clamped_persisted _ _ _ ("42") (strBytes (" 5"))
      (by rfl) (by decide) (by decide) (by rfl) (by rfl) (by decide) (by rfl) (by rfl),
   (otptimeout_clamped_persisted _ _ _ ("42") (strBytes (" 999999"))
      (by rfl) (by decide) (by decide) (by rfl) (by rfl) (by decide) (by rfl) (by rfl)).1⟩

/- ===================================================================
   Claim C8
   =================================================================== -/

/-- C8: a connect command whose number resolves outside the 1-based range
    of the freshly refreshed window list (including 0) replies with the
    invalid-window message only, and every prior connection-state field
    (connected flag, window id, process id, owner label, title) is left
    unchanged. -/
theorem invalid_window_keeps_connection (env : Env) (st : BotState) (br : BotRequest)
    (s : String) (d : Nat) (rest : List Nat)
    (ho : kvGet st.kv OWNER_KEY = some s) (hsv : strtoll s = br.frm) (hnz : br.frm ≠ 0)
    (hw : st.weakSecurity = false) (ha : st.authenticated = true)
    (hfr : env.now - st.lastActivity ≤ st.otpTimeout) (hcb : br.is_callback = false)
    (hreq : br.request = 0x2E :: d :: rest) (hd : isdigit d = true)
    (hout : atoi (d :: rest) < 1 ∨ (env.windows.length : Int) < atoi (d :: rest)) :
    (handle_request env st br).2 = [.sendMessage br.target (.invalidWindow)] ∧
    (handle_request env st br).1.connected = st.connected ∧
    (handle_request env st br).1.connectedWid = st.connectedWid ∧
    (handle_request env st br).1.connectedPid = st.connectedPid ∧
    (handle_request env st br).1.connectedOwner = st.connectedOwner ∧
    (handle_request env st br).1.connectedTitle = st.connectedTitle := by
  have hgate : ¬(st.authenticated = false ∨ env.now - st.lastActivity > st.otpTimeout) := by
    rintro (h | h)
    · simp [ha] at h
    · omega
  rw [handle_request_owner env st br s ho hsv hnz]
  unfold gate
  rw [if_neg (by simp [hw]), if_neg hgate]
  rw [digit_dispatch env _ br d rest hcb hreq hd]
  rw [if_pos hout]
  simp

/-- Witness for C8: the out-of-range connect command .0 with a window
    connected beforehand leaves the connection untouched. -/
theorem invalid_window_keeps_connection_wit :
    (handle_request envW stWC ⟨42, 42, 0, [0x2E, 0x30], false, ("")⟩).2
      = [.sendMessage 42 (.invalidWindow)] ∧
    (handle_request envW stWC ⟨42, 42, 0, [0x2E, 0x30], false, ("")⟩).1.connected = true ∧
    (handle_request envW stWC ⟨42, 42, 0, [0x2E, 0x30], false, ("")⟩).1.connectedWid = 5 ∧
    (handle_request envW stWC ⟨42, 42, 0, [0x2E, 0x30], false, ("")⟩).1.connectedPid = 6 ∧
    (handle_request envW stWC ⟨42, 42, 0, [0x2E, 0x30], false, ("")⟩).1.connectedOwner
      = [0x41] ∧
    (handle_request envW stWC ⟨42, 42, 0, [0x2E, 0x30], false, ("")⟩).1.connectedTitle
      = [0x42] :=
  invalid_window_keeps_connection envW stWC ⟨42, 42, 0, [0x2E, 0x30], false, ("")⟩
    ("42") 0x30 [] (by rfl) (by decide) (by decide) (by rfl) (by rfl) (by decide)
    (by rfl) (by rfl) (by decide) (Or.inl (by decide))

/- ===================================================================
   Claim C10
   =================================================================== -/

/-- C10: an authenticated, non-expired text request whose first byte is a
    dot and second byte an ASCII digit is always handled as a connect
    command: the number used is the value of the leading digit prefix
    (junk after the digits is ignored), the request is never forwarded to
    the keystroke encoder, and an in-range number connects to that
    1-based window of the freshly refreshed list. -/
theorem digit_prefix_connects (env : Env) (st : BotState) (br : BotRequest)
    (s : String) (d : Nat) (rest : List Nat)
    (ho : kvGet st.kv OWNER_KEY = some s) (hsv : strtoll s = br.frm) (hnz : br.frm ≠ 0)
    (hw : st.weakSecurity = false) (ha : st.authenticated = true)
    (hfr : env.now - st.lastActivity ≤ st.otpTimeout) (hcb : br.is_callback = false)
    (hreq : br.request = 0x2E :: d :: rest) (hd : isdigit d = true) :
    (∀ evs : List KeyEvent, BotAction.sentKeys evs ∉ (handle_request env st br).2) ∧
    atoi (d :: rest) = (digitsVal (d :: rest) 0 : Int) ∧
    (1 ≤ digitsVal (d :: rest) 0 → digitsVal (d :: rest) 0 ≤ env.windows.length →
      (handle_request env st br).1.connected = true ∧
      (handle_request env st br).1.connectedWid
        = (env.windows.getD (digitsVal (d :: rest) 0 - 1) defaultWin).window_id ∧
      (handle_request env st br).1.connectedPid
        = (env.windows.getD (digitsVal (d :: rest) 0 - 1) defaultWin).pid) := by
  have hgate : ¬(st.authenticated = false ∨ env.now - st.lastActivity > st.otpTimeout) := by
    rintro (h | h)
    · simp [ha] at h
    · omega
  have hv := atoi_digit_lead rest hd
  rw [handle_request_owner env st br s ho hsv hnz]
  unfold gate
  rw [if_neg (by simp [hw]), if_neg hgate]
  rw [digit_dispatch env _ br d rest hcb hreq hd]
  refine ⟨?_, hv, ?_⟩
  · intro evs
    by_cases hrange : atoi (d :: rest) < 1 ∨ (env.windows.length : Int) < atoi (d :: rest)
    · rw [if_pos hrange]
      simp
    · rw [if_neg hrange]
      rcases hcap : env.captureOk <;> simp [hcap]
  · intro h1 h2
    have hrange : ¬(atoi (d :: rest) < 1 ∨ (env.windows.length : Int) < atoi (d :: rest)) := by
      rw [hv]
      rintro (h | h) <;> omega
    rw [if_neg hrange]
    have htn : (atoi (d :: rest)).toNat = digitsVal (d :: rest) 0 := by
      rw [hv]
      exact Int.toNat_ofNat _
    simp [htn]

/-- Witness for C10: the request .1abc connects to window 1 and sends no
    keystrokes. -/
theorem digit_prefix_connects_wit :
    (∀ evs : List KeyEvent, BotAction.sentKeys evs ∉
      (handle_request envW stW ⟨42, 42, 0, [0x2E, 0x31, 0x61, 0x62, 0x63], false, ("")⟩).2) ∧
    atoi [0x31, 0x61, 0x62, 0x63] = (digitsVal [0x31, 0x61, 0x62, 0x63] 0 : Int) ∧
    (1 ≤ digitsVal [0x31, 0x61, 0x62, 0x63] 0 →
     digitsVal [0x31, 0x61, 0x62, 0x63] 0 ≤ envW.windows.length →
      (handle_request envW stW
        ⟨42, 42, 0, [0x2E, 0x31, 0x61, 0x62, 0x63], false, ("")⟩).1.connected = true ∧
      (handle_request envW stW
        ⟨42, 42, 0, [0x2E, 0x31, 0x61, 0x62, 0x63], false, ("")⟩).1.connectedWid
        = (envW.windows.getD (digitsVal [0x31, 0x61, 0x62, 0x63] 0 - 1) defaultWin).window_id ∧
      (handle_request envW stW
        ⟨42, 42, 0, [0x2E, 0x31, 0x61, 0x62, 0x63], false, ("")⟩).1.connectedPid
        = (envW.windows.getD (digitsVal [0x31, 0x61, 0x62, 0x63] 0 - 1) defaultWin).pid) :=
  digit_prefix_connects envW stW ⟨42, 42, 0, [0x2E, 0x31, 0x61, 0x62, 0x63], false, ("")⟩
    ("42") 0x31 [0x61, 0x62, 0x63]
    (by rfl) (by decide) (by decide) (by rfl) (by rfl) (by decide) (by rfl) (by rfl)
    (by decide)

/- ===================================================================
   Claim C2
   =================================================================== -/

/-- C2: for a non-callback owner request under the gate, if the session is
    authenticated but more than otpTimeout seconds elapsed since
    lastActivity, the gate falls back to unauthenticated and the request
    text goes through the OTP verify path instead of command dispatch (so
    even a structured command like .list only yields the OTP replies);
    and while authenticated and not expired, every accepted request
    refreshes lastActivity to the current clock. -/
theorem expired_session_feeds_otp (env : Env) (st : BotState) (br : BotRequest)
    (s : String)
    (ho : kvGet st.kv OWNER_KEY = some s) (hsv : strtoll s = br.frm) (hnz : br.frm ≠ 0)
    (hw : st.weakSecurity = false) (hcb : br.is_callback = false) :
    (st.authenticated = true → env.now - st.lastActivity > st.otpTimeout →
      handle_request env st br =
        (if is_otp_format br.request && totp_verify env.hmac st.kv env.now br.request then
          ({ st with authenticated := true, lastActivity := env.now },
           [.sendMessage br.target (.authAck)])
         else ({ st with authenticated := false },
           [.sendMessage br.target (.enterOtp)]))) ∧
    (st.authenticated = true → env.now - st.lastActivity ≤ st.otpTimeout →
      (handle_request env st br).1.lastActivity = env.now) := by
  have hgo := handle_request_owner env st br s ho hsv hnz
  constructor
  · intro _ hexp
    rw [hgo]
    unfold gate
    rw [if_neg (by simp [hw]), if_pos (Or.inr hexp), if_neg (by simp [hcb])]
  · intro ha hfr
    have hgate : ¬(st.authenticated = false ∨ env.now - st.lastActivity > st.otpTimeout) := by
      rintro (h | h)
      · simp [ha] at h
      · omega
    rw [hgo]
    unfold gate
    rw [if_neg (by simp [hw]), if_neg hgate]
    rw [dispatch_lastActivity]

/-- Witness for C2: an expired session answers the structured command
    .list with the OTP prompt and drops to unauthenticated. -/
theorem expired_session_feeds_otp_wit :
    handle_request envW stWE ⟨42, 42, 0, dotListB, false, ("")⟩ =
      (⟨false, false, 0, 300, false, 0, 0, [], [], [], [(OWNER_KEY, "42")]⟩,
       [.sendMessage 42 (.enterOtp)]) :=
  (expired_session_feeds_otp envW stWE ⟨42, 42, 0, dotListB, false, ("")⟩ ("42")
    (by rfl) (by decide) (by decide) (by rfl) (by rfl)).1 (by rfl) (by decide)

/- ===================================================================
   Claim C3
   =================================================================== -/

/-- C3: in the OTP gate (unauthenticated or expired, non-callback owner
    request, properly provisioned 20-byte secret, sane clock),
    authentication succeeds exactly when the request text is 6 ASCII
    digits whose value equals the TOTP code at one of the time steps
    floor(now/30) - 1, floor(now/30), floor(now/30) + 1. -/
theorem otp_accept_iff_totp_window (env : Env) (st : BotState) (br : BotRequest)
    (s hx : String)
    (ho : kvGet st.kv OWNER_KEY = some s) (hsv : strtoll s = br.frm) (hnz : br.frm ≠ 0)
    (hw : st.weakSecurity = false) (hcb : br.is_callback = false)
    (hgate : st.authenticated = false ∨ env.now - st.lastActivity > st.otpTimeout)
    (hsec : kvGet st.kv ("totp_secret") = some hx)
    (hlen : (hex_to_bytes (strBytes hx) 20).length = 20)
    (hlo : 30 ≤ env.now) (hhi : env.now < (U64 : Int)) :
    (handle_request env st br).1.authenticated = true ↔
      (br.request.length = 6 ∧ (∀ b ∈ br.request, isdigit b = true) ∧
       ∃ t : Nat,
         (t = env.now.toNat / 30 - 1 ∨ t = env.now.toNat / 30 ∨ t = env.now.toNat / 30 + 1) ∧
         totp_code env.hmac (hex_to_bytes (strBytes hx) 20) t = digitsVal br.request 0) := by
  rw [handle_request_owner env st br s ho hsv hnz]
  unfold gate
  rw [if_neg (by simp [hw]), if_pos hgate, if_neg (by simp [hcb])]
  rw [← verify_iff env.hmac st.kv env.now br.request hx hsec hlen hlo hhi]
  by_cases hC : (is_otp_format br.request
      && totp_verify env.hmac st.kv env.now br.request) = true
  · rw [if_pos hC]
    simp [hC]
  · rw [if_neg hC]
    simp [hC]

/-- Witness for C3: with the zero digest, code 000000 is accepted at
    clock 60. -/
theorem otp_accept_iff_totp_window_wit :
    (handle_request envO stO ⟨42, 42, 0, strBytes ("000000"), false, ("")⟩).1.authenticated
      = true :=
  (otp_accept_iff_totp_window envO stO ⟨42, 42, 0, strBytes ("000000"), false, ("")⟩
    ("42") hexZeros (by rfl) (by decide) (by decide) (by rfl) (by rfl)
    (Or.inl (by rfl)) (by rfl) (by decide) (by decide) (by decide)).mpr
    ⟨by decide, by decide, 2, Or.inr (Or.inl (by decide)), by decide⟩

/- ===================================================================
   Encoder lemmas: the loop flags as functions of the emitted events
   =================================================================== -/

theorem scanLoop_flags : ∀ (f : Nat) (bs : List Nat) (mods keycount : Nat) (hm lnl : Bool),
    (scanLoop f bs mods keycount hm lnl).keycount
        = keycount + (scanLoop f bs mods keycount hm lnl).events.length ∧
    (scanLoop f bs mods keycount hm lnl).had_mods
        = (hm || (scanLoop f bs mods keycount hm lnl).events.any marksHadMods) ∧
    (scanLoop f bs mods keycount hm lnl).last_was_nl
        = lastNlFlag lnl (scanLoop f bs mods keycount hm lnl).events := by
  intro f
  induction f with
  | zero =>
    intro bs mods keycount hm lnl
    cases bs <;> simp [scanLoop, lastNlFlag]
  | succ g ih =>
    intro bs mods keycount hm lnl
    cases bs with
    | nil => simp [scanLoop, lastNlFlag]
    | cons b rest =>
      rw [scanLoop]
      by_cases h1 : 0 < match_red_heart (b :: rest)
      · rw [if_pos h1]
        exact ih _ _ _ _ _
      rw [if_neg h1]
      by_cases h2 : 0 < match_orange_heart (b :: rest)
      · rw [if_pos h2]
        simp only []
        obtain ⟨ha, hb2, hc⟩ := ih ((b :: rest).drop (match_orange_heart (b :: rest))) 0
          (keycount + 1) (hm || (mods != 0)) true
        refine ⟨?_, ?_, ?_⟩
        · simp only [List.length_cons]
          omega
        · rw [hb2]
          simp [marksHadMods, PLAT_KEY_RETURN, PLAT_KEY_ESCAPE, List.any_cons, Bool.or_assoc]
        · rw [hc]
          simp [lastNlFlag, PLAT_KEY_RETURN]
      rw [if_neg h2]
      by_cases h3 : 0 < (match_colored_heart (b :: rest)).1
      · rw [if_pos h3]
        by_cases hy : (match_colored_heart (b :: rest)).2 = 0x59
        · rw [if_pos hy]
          simp only []
          obtain ⟨ha, hb2, hc⟩ := ih ((b :: rest).drop (match_colored_heart (b :: rest)).1) 0
            (keycount + 1) true false
          refine ⟨?_, ?_, ?_⟩
          · simp only [List.length_cons]
            omega
          · rw [hb2]
            simp [marksHadMods, PLAT_KEY_ESCAPE, List.any_cons]
          · rw [hc]
            simp [lastNlFlag, PLAT_KEY_RETURN, PLAT_KEY_ESCAPE]
        · rw [if_neg hy]
          by_cases hbl : (match_colored_heart (b :: rest)).2 = 0x42
          · rw [if_pos hbl]
            exact ih _ _ _ _ _
          · rw [if_neg hbl]
            exact ih _ _ _ _ _
      rw [if_neg h3]
      by_cases h4 : b = 0x5C ∧ rest.headD 0 = 0x6E
      · rw [if_pos h4]
        simp only []
        obtain ⟨ha, hb2, hc⟩ := ih (rest.drop 1) 0 (keycount + 1) (hm || (mods != 0)) true
        refine ⟨?_, ?_, ?_⟩
        · simp only [List.length_cons]
          omega
        · rw [hb2]
          simp [marksHadMods, PLAT_KEY_RETURN, PLAT_KEY_ESCAPE, List.any_cons, Bool.or_assoc]
        · rw [hc]
          simp [lastNlFlag, PLAT_KEY_RETURN]
      rw [if_neg h4]
      by_cases h5 : b = 0x5C ∧ rest.headD 0 = 0x74
      · rw [if_pos h5]
        simp only []
        obtain ⟨ha, hb2, hc⟩ := ih (rest.drop 1) 0 (keycount + 1) (hm || (mods != 0)) false
        refine ⟨?_, ?_, ?_⟩
        · simp only [List.length_cons]
          omega
        · rw [hb2]
          simp [marksHadMods, PLAT_KEY_TAB, PLAT_KEY_ESCAPE, List.any_cons, Bool.or_assoc]
        · rw [hc]
          simp [lastNlFlag, PLAT_KEY_TAB, PLAT_KEY_RETURN]
      rw [if_neg h5]
      by_cases h6 : b = 0x5C ∧ rest.headD 0 = 0x5C
      · rw [if_pos h6]
        simp only []
        obtain ⟨ha, hb2, hc⟩ := ih (rest.drop 1) 0 (keycount + 1) (hm || (mods != 0)) false
        refine ⟨?_, ?_, ?_⟩
        · simp only [List.length_cons]
          omega
        · rw [hb2]
          simp [marksHadMods, PLAT_KEY_CHAR, PLAT_KEY_ESCAPE, List.any_cons, Bool.or_assoc]
        · rw [hc]
          simp [lastNlFlag, PLAT_KEY_CHAR, PLAT_KEY_RETURN]
      rw [if_neg h6]
      simp only []
      obtain ⟨ha, hb2, hc⟩ := ih rest 0 (keycount + 1) (hm || (mods != 0)) false
      refine ⟨?_, ?_, ?_⟩
      · simp only [List.length_cons]
        omega
      · rw [hb2]
        simp [marksHadMods, PLAT_KEY_CHAR, PLAT_KEY_ESCAPE, List.any_cons, Bool.or_assoc]
      · rw [hc]
        simp [lastNlFlag, PLAT_KEY_CHAR, PLAT_KEY_RETURN]

theorem lastNlFlag_eq (evs : List KeyEvent) : ∀ lnl : Bool,
    lastNlFlag lnl evs =
      (match evs.getLast? with
       | some e => e.special == PLAT_KEY_RETURN
       | none => lnl) := by
  induction evs with
  | nil =>
    intro lnl
    rfl
  | cons e rest ih =>
    intro lnl
    rw [lastNlFlag, ih]
    cases rest with
    | nil => rfl
    | cons e2 r2 =>
      rcases hgl : (e2 :: r2).getLast? with _ | e3
      · rw [List.getLast?_eq_none_iff] at hgl
        cases hgl
      · simp [hgl]

theorem lastIsReturn_eq (evs : List KeyEvent) : lastNlFlag false evs = lastIsReturn evs := by
  rw [lastNlFlag_eq]
  unfold lastIsReturn
  rfl

/-- The final flags of the send_keys scan on a request text, read off the
    emitted event list. -/
theorem scan_result_flags (text : List Nat) :
    (scan_result text).keycount = (scan_result text).events.length ∧
    (scan_result text).had_mods = (scan_result text).events.any marksHadMods ∧
    (scan_result text).last_was_nl = lastIsReturn (scan_result text).events := by
  have h := scanLoop_flags (scan_body text).length (scan_body text) 0 0 false false
  unfold scan_result scanKeys
  refine ⟨?_, ?_, ?_⟩
  · rw [h.1]
    simp
  · rw [h.2.1]
    simp
  · rw [h.2.2, lastIsReturn_eq]

/-- One literal-byte step of the scan, for a head byte that matches no
    glyph and is not a backslash. -/
theorem scanKeys_literal_step (b : Nat) (rest : List Nat) (mods keycount : Nat)
    (hm lnl : Bool)
    (hb1 : match_red_heart (b :: rest) = 0)
    (hb2 : match_orange_heart (b :: rest) = 0)
    (hb3 : (match_colored_heart (b :: rest)).1 = 0)
    (hb4 : b ≠ 0x5C) :
    scanKeys (b :: rest) mods keycount hm lnl =
      ⟨⟨PLAT_KEY_CHAR, b, mods⟩ ::
        (scanKeys rest 0 (keycount + 1) (hm || (mods != 0)) false).events,
       (scanKeys rest 0 (keycount + 1) (hm || (mods != 0)) false).keycount,
       (scanKeys rest 0 (keycount + 1) (hm || (mods != 0)) false).had_mods,
       (scanKeys rest 0 (keycount + 1) (hm || (mods != 0)) false).last_was_nl⟩ := by
  unfold scanKeys
  simp only [List.length_cons]
  rw [scanLoop]
  rw [if_neg (by simp [hb1]), if_neg (by simp [hb2]), if_neg (by simp [hb3])]
  rw [if_neg (by simp [hb4]), if_neg (by simp [hb4]), if_neg (by simp [hb4])]

/-- Recognition of the purple heart marker reduced to a prefix test. -/
theorem match_purple_heart_eq (l : List Nat) :
    match_purple_heart l = if l.take 4 == purpleHeartB then 4 else 0 := by
  rw [match_purple_heart.eq_def]
  split
  · rename_i tail
    simp [purpleHeartB]
  · rename_i hne
    by_cases ht : l.take 4 = purpleHeartB
    · exfalso
      apply hne (l.drop 4)
      conv_lhs => rw [← List.take_append_drop 4 l]
      rw [ht]
      rfl
    · rw [if_neg (by simpa using ht)]

/- ===================================================================
   Claim C4 (corrected)
   =================================================================== -/

/-- C4 counterexample: for the bare Escape glyph, the code appends no
    trailing Return although the claimed rule (marker present, or a single
    event carrying a modifier, or a trailing Return event) demands one:
    the Escape emission carries no modifier yet sets the had-modifier
    flag. -/
theorem auto_return_claim_cex :
    ¬(auto_return_decision yellowHeartB = !spec_suppress_return yellowHeartB) := by
  decide

/-- C4 (amended): send_keys appends the automatic trailing Return exactly
    when the suppress-newline marker was absent, not exactly one event was
    emitted that carried a modifier or was an Escape-glyph emission, and
    the last emitted event was not already a Return. -/
theorem auto_return_rule_amended (text : List Nat) :
    auto_return_decision text =
      (!ends_with_purple_heart text
       && !((scan_result text).events.length == 1
            && (scan_result text).events.any marksHadMods)
       && !lastIsReturn (scan_result text).events) := by
  obtain ⟨h1, h2, h3⟩ := scan_result_flags text
  unfold auto_return_decision
  rw [h1, h2, h3]

/- ===================================================================
   Claim C5 (corrected)
   =================================================================== -/

/-- C5 counterexample: with a pending Ctrl modifier, the Escape-now glyph
    emits an Escape event that carries no modifiers at all, not the
    claimed accumulated ones. -/
theorem escape_mods_claim_cex :
    send_keys_events (redHeartB ++ yellowHeartB) = [⟨PLAT_KEY_ESCAPE, 0, 0⟩] ∧
    send_keys_events (redHeartB ++ yellowHeartB) ≠ [⟨PLAT_KEY_ESCAPE, 0, MOD_CTRL⟩] := by
  decide

/-- C5 (amended): the Escape-now glyph immediately emits an Escape key
    event carrying no modifiers (the pending modifiers are discarded, not
    attached), clears the pending modifiers, does not count as a newline,
    and unconditionally sets the had-modifier flag. -/
theorem escape_glyph_emits_unmodified (rest : List Nat) (mods keycount : Nat)
    (hm lnl : Bool) :
    scanKeys (yellowHeartB ++ rest) mods keycount hm lnl =
      ⟨⟨PLAT_KEY_ESCAPE, 0, 0⟩ :: (scanKeys rest 0 (keycount + 1) true false).events,
       (scanKeys rest 0 (keycount + 1) true false).keycount,
       (scanKeys rest 0 (keycount + 1) true false).had_mods,
       (scanKeys rest 0 (keycount + 1) true false).last_was_nl⟩ := by
  have e1 : yellowHeartB ++ rest = 0xF0 :: 0x9F :: 0x92 :: 0x9B :: rest := rfl
  rw [e1]
  have m1 : match_red_heart (0xF0 :: 0x9F :: 0x92 :: 0x9B :: rest) = 0 := rfl
  have m2 : match_orange_heart (0xF0 :: 0x9F :: 0x92 :: 0x9B :: rest) = 0 := rfl
  have m3 : match_colored_heart (0xF0 :: 0x9F :: 0x92 :: 0x9B :: rest) = (4, 0x59) := rfl
  unfold scanKeys
  simp only [List.length_cons]
  rw [scanLoop]
  rw [if_neg (by simp [m1]), if_neg (by simp [m2])]
  rw [if_pos (by simp [m3]), if_pos (by simp [m3])]
  simp only [m3, List.drop_succ_cons, List.drop_zero]
  rw [scanLoop_fuel (rest.length + 1 + 1 + 1) rest 0 (keycount + 1) true false (by omega)]
  rfl

/- ===================================================================
   Claim C9
   =================================================================== -/

/-- C9: the suppress-newline marker is recognised only as the final four
    bytes of the text (ends_with_purple_heart tests exactly that), and a
    purple heart occurring anywhere the scan reads it is not treated as a
    token: its four bytes become four separate literal-character key
    events, the first carrying the pending modifiers. -/
theorem purple_heart_final_only (text rest : List Nat) (mods keycount : Nat)
    (hm lnl : Bool) :
    (ends_with_purple_heart text
      = (decide (4 ≤ text.length) && (text.drop (text.length - 4) == purpleHeartB))) ∧
    (scanKeys (purpleHeartB ++ rest) mods keycount hm lnl =
      ⟨⟨PLAT_KEY_CHAR, 0xF0, mods⟩ :: ⟨PLAT_KEY_CHAR, 0x9F, 0⟩ :: ⟨PLAT_KEY_CHAR, 0x92, 0⟩ ::
        ⟨PLAT_KEY_CHAR, 0x9C, 0⟩ ::
        (scanKeys rest 0 (keycount + 4) (hm || (mods != 0)) false).events,
       (scanKeys rest 0 (keycount + 4) (hm || (mods != 0)) false).keycount,
       (scanKeys rest 0 (keycount + 4) (hm || (mods != 0)) false).had_mods,
       (scanKeys rest 0 (keycount + 4) (hm || (mods != 0)) false).last_was_nl⟩) := by
  constructor
  · unfold ends_with_purple_heart
    by_cases h4 : 4 ≤ text.length
    · rw [decide_eq_true h4]
      simp only [Bool.true_and]
      rw [match_purple_heart_eq]
      have hlen : (text.drop (text.length - 4)).length = 4 := by
        simp only [List.length_drop]
        omega
      have htake : (text.drop (text.length - 4)).take 4 = text.drop (text.length - 4) :=
        List.take_of_length_le (by omega)
      rw [htake]
      cases hP : text.drop (text.length - 4) == purpleHeartB
      · rw [if_neg (by simp [hP])]
        simp
      · rw [if_pos (by simp [hP])]
        simp
    · rw [decide_eq_false h4]
      simp
  · have e1 : purpleHeartB ++ rest = 0xF0 :: 0x9F :: 0x92 :: 0x9C :: rest := rfl
    rw [e1]
    rw [scanKeys_literal_step 0xF0 (0x9F :: 0x92 :: 0x9C :: rest) mods keycount hm lnl
      rfl rfl rfl (by norm_num)]
    rw [scanKeys_literal_step 0x9F (0x92 :: 0x9C :: rest) 0 (keycount + 1)
      (hm || (mods != 0)) false rfl rfl rfl (by norm_num)]
    rw [scanKeys_literal_step 0x92 (0x9C :: rest) 0 (keycount + 1 + 1)
      ((hm || (mods != 0)) || ((0 : Nat) != 0)) false rfl rfl rfl (by norm_num)]
    rw [scanKeys_literal_step 0x9C rest 0 (keycount + 1 + 1 + 1)
      (((hm || (mods != 0)) || ((0 : Nat) != 0)) || ((0 : Nat) != 0)) false
      rfl rfl rfl (by norm_num)]
    rw [show keycount + 1 + 1 + 1 + 1 = keycount + 4 from by omega]
    simp only [show ((0 : Nat) != 0) = false from rfl, Bool.or_false]

end TgTerm
